import Mathlib

/-!
Verification of the parking-reservation core: a shallow embedding of the
domain model (`src/core/domain/models.py`), the in-memory stores
(`src/adapters/outgoing/persistence/in_memory.py`) and the core use cases
(`src/core/usecases/*.py`), together with proofs of the specified
properties.

Modelling conventions:
- `datetime` values are modelled as `Int` timestamps (only their total
  order matters to the code under verification); the ambient clock
  (`datetime.now()`) is passed explicitly as a `now : Int` argument.
- `UUID` keys are modelled as `Nat`.
- A Python `dict` is modelled as an association list whose `put`
  replaces the value in place when the key is present and appends
  otherwise, exactly dict insertion-order semantics; `pop(k, None)`
  removes the entry for the key.
- A Python method that raises a domain exception is modelled as a
  function into `Except DomainError _`; the class of the exception is the
  `DomainError` constructor, and the state is returned unchanged only on
  success (a raise aborts before any store write, as in the source).
-/

/-- The domain exception classes of `src/core/domain/exceptions.py`;
`valueError` stands for the built-in `ValueError` raised by
`TimeSlot.__post_init__`. -/
inductive DomainError where
  | spaceNotAvailableError
  | reservationNotFoundError
  | spaceNotFoundError
  | userNotFoundError
  | invalidReservationError
  | reservationConflictError
  | authorizationError
  | valueError
deriving DecidableEq, Repr

/-- Status of a parking reservation (`ReservationStatus` enum). -/
inductive ReservationStatus where
  | pending
  | confirmed
  | rejected
  | cancelled
deriving DecidableEq, Repr, BEq

/-- Raw fields of the `TimeSlot` value object.  Construction through
`TimeSlot.make` performs the `__post_init__` validation. -/
structure TimeSlot where
  start_time : Int
  end_time : Int
deriving DecidableEq, Repr

/-- Constructor `TimeSlot(start, end)`: dataclass construction running
`__post_init__`, which raises `ValueError` when `end_time <= start_time`
and otherwise yields the slot with exactly the given bounds.  This runs
at construction, before any store interaction. -/
def TimeSlot.make (start_time end_time : Int) : Except DomainError TimeSlot :=
  if end_time ≤ start_time then .error .valueError
  else .ok ⟨start_time, end_time⟩

/-- The `ParkingSpace` domain model. -/
structure ParkingSpace where
  space_id : String
  location : String
  is_available : Bool := true
  hourly_rate : Rat := 5
  space_type : String := "standard"
deriving DecidableEq, Repr

/-- The `Reservation` domain model. -/
structure Reservation where
  user_id : Nat
  space_id : String
  time_slot : TimeSlot
  reservation_id : Nat
  status : ReservationStatus := .pending
  created_at : Int
  updated_at : Int
  admin_notes : String := ""
deriving DecidableEq, Repr

/-- Method `Reservation.approve`: raises `InvalidReservationError` unless the
status is PENDING; on success sets status CONFIRMED, stores the admin
notes and refreshes `updated_at`. -/
def Reservation.approve (r : Reservation) (admin_notes : String) (now : Int) :
    Except DomainError Reservation :=
  if r.status ≠ ReservationStatus.pending then .error .invalidReservationError
  else .ok { r with status := .confirmed, admin_notes := admin_notes, updated_at := now }

/-- Method `Reservation.reject`: raises `InvalidReservationError` unless the
status is PENDING; on success sets status REJECTED, stores the admin
notes and refreshes `updated_at`. -/
def Reservation.reject (r : Reservation) (admin_notes : String) (now : Int) :
    Except DomainError Reservation :=
  if r.status ≠ ReservationStatus.pending then .error .invalidReservationError
  else .ok { r with status := .rejected, admin_notes := admin_notes, updated_at := now }

/-- Method `Reservation.cancel`: raises `InvalidReservationError` when the
status is REJECTED or CANCELLED; on success sets status CANCELLED and
refreshes `updated_at`. -/
def Reservation.cancel (r : Reservation) (now : Int) :
    Except DomainError Reservation :=
  if r.status = ReservationStatus.rejected ∨ r.status = ReservationStatus.cancelled then
    .error .invalidReservationError
  else .ok { r with status := .cancelled, updated_at := now }

/-- Association-list lookup: `dict.get(k)`. -/
def assocGet {κ α : Type} [DecidableEq κ] (k : κ) : List (κ × α) → Option α
  | [] => none
  | (k', v) :: rest => if k' = k then some v else assocGet k rest

/-- Association-list insertion with dict semantics: `d[k] = v` replaces
the value in place when the key is present, else appends. -/
def assocPut {κ α : Type} [DecidableEq κ] (k : κ) (v : α) : List (κ × α) → List (κ × α)
  | [] => [(k, v)]
  | (k', v') :: rest =>
    if k' = k then (k, v) :: rest else (k', v') :: assocPut k v rest

/-- Association-list removal: `d.pop(k, None)` (total, never raises). -/
def assocRemove {κ α : Type} [DecidableEq κ] (k : κ) (l : List (κ × α)) : List (κ × α) :=
  l.filter (fun p => decide (p.1 ≠ k))

/-- Predicate `InMemoryReservationRepository._time_slots_overlap`:
`slot1.start_time < slot2.end_time and slot2.start_time < slot1.end_time`. -/
def time_slots_overlap (slot1 slot2 : TimeSlot) : Bool :=
  decide (slot1.start_time < slot2.end_time) && decide (slot2.start_time < slot1.end_time)

namespace ReservationRepo

/-- Method `InMemoryReservationRepository.save`. -/
def save (db : List (Nat × Reservation)) (r : Reservation) : List (Nat × Reservation) :=
  assocPut r.reservation_id r db

/-- Method `InMemoryReservationRepository.find_by_id`. -/
def find_by_id (db : List (Nat × Reservation)) (reservation_id : Nat) : Option Reservation :=
  assocGet reservation_id db

/-- Method `InMemoryReservationRepository.find_by_status`. -/
def find_by_status (db : List (Nat × Reservation)) (status : ReservationStatus) :
    List Reservation :=
  (db.map Prod.snd).filter (fun r => r.status == status)

/-- Method `InMemoryReservationRepository.find_by_space_and_time`: all stored
reservations on the space whose slot overlaps the given slot. -/
def find_by_space_and_time (db : List (Nat × Reservation)) (space_id : String)
    (time_slot : TimeSlot) : List Reservation :=
  (db.map Prod.snd).filter
    (fun r => decide (r.space_id = space_id) && time_slots_overlap r.time_slot time_slot)

/-- Method `InMemoryReservationRepository.update`. -/
def update (db : List (Nat × Reservation)) (r : Reservation) : List (Nat × Reservation) :=
  assocPut r.reservation_id r db

/-- Method `InMemoryReservationRepository.delete`. -/
def delete (db : List (Nat × Reservation)) (reservation_id : Nat) :
    List (Nat × Reservation) :=
  assocRemove reservation_id db

end ReservationRepo

namespace SpaceRepo

/-- Method `InMemoryParkingSpaceRepository.save`. -/
def save (db : List (String × ParkingSpace)) (space : ParkingSpace) :
    List (String × ParkingSpace) :=
  assocPut space.space_id space db

/-- Method `InMemoryParkingSpaceRepository.find_by_id`. -/
def find_by_id (db : List (String × ParkingSpace)) (space_id : String) :
    Option ParkingSpace :=
  assocGet space_id db

/-- Method `InMemoryParkingSpaceRepository.find_available`. -/
def find_available (db : List (String × ParkingSpace)) : List ParkingSpace :=
  (db.map Prod.snd).filter (fun s => s.is_available)

/-- Method `InMemoryParkingSpaceRepository.delete`. -/
def delete (db : List (String × ParkingSpace)) (space_id : String) :
    List (String × ParkingSpace) :=
  assocRemove space_id db

end SpaceRepo

/-- The two stores a core operation touches: the reservation dict and
the space dict of the in-memory repositories. -/
structure SystemState where
  reservations : List (Nat × Reservation)
  spaces : List (String × ParkingSpace)
deriving Repr

/-- The `active_conflicts` list computed inside
`ReserveParkingService.execute` and `CheckAvailabilityService.is_space_available`:
overlap-query results restricted to status PENDING or CONFIRMED. -/
def active_conflicts (db : List (Nat × Reservation)) (space_id : String)
    (time_slot : TimeSlot) : List Reservation :=
  (ReservationRepo.find_by_space_and_time db space_id time_slot).filter
    (fun r => r.status == ReservationStatus.pending || r.status == ReservationStatus.confirmed)

/-- Use case `ReserveParkingService.execute`: space must exist, must be
administratively available, and no active overlapping reservation may
exist; then a PENDING reservation is created and saved.  The fresh UUID
and the creation clock are explicit arguments `rid` and `now`. -/
def reserve_parking (st : SystemState) (user_id : Nat) (space_id : String)
    (time_slot : TimeSlot) (rid : Nat) (now : Int) :
    Except DomainError (SystemState × Reservation) :=
  match SpaceRepo.find_by_id st.spaces space_id with
  | none => .error .spaceNotFoundError
  | some space =>
    if !space.is_available then .error .spaceNotAvailableError
    else if active_conflicts st.reservations space_id time_slot ≠ [] then
      .error .reservationConflictError
    else
      let reservation : Reservation :=
        { user_id := user_id, space_id := space_id, time_slot := time_slot,
          reservation_id := rid, status := .pending,
          created_at := now, updated_at := now, admin_notes := "" }
      .ok ({ st with reservations := ReservationRepo.save st.reservations reservation },
           reservation)

/-- Use case `CheckAvailabilityService.is_space_available`: false when the space
is absent or administratively unavailable, else true exactly when the
overlap query yields no PENDING/CONFIRMED reservation. -/
def is_space_available (st : SystemState) (space_id : String) (time_slot : TimeSlot) :
    Bool :=
  match SpaceRepo.find_by_id st.spaces space_id with
  | none => false
  | some space =>
    if !space.is_available then false
    else (active_conflicts st.reservations space_id time_slot).length == 0

/-- Use case `AdminApprovalService.approve_reservation`: fetch, approve, persist. -/
def approve_reservation (st : SystemState) (reservation_id : Nat)
    (admin_notes : String) (now : Int) :
    Except DomainError (SystemState × Reservation) :=
  match ReservationRepo.find_by_id st.reservations reservation_id with
  | none => .error .reservationNotFoundError
  | some reservation =>
    match reservation.approve admin_notes now with
    | .error e => .error e
    | .ok updated =>
      .ok ({ st with reservations := ReservationRepo.update st.reservations updated },
           updated)

/-- Use case `AdminApprovalService.reject_reservation`: fetch, reject, persist. -/
def reject_reservation (st : SystemState) (reservation_id : Nat)
    (admin_notes : String) (now : Int) :
    Except DomainError (SystemState × Reservation) :=
  match ReservationRepo.find_by_id st.reservations reservation_id with
  | none => .error .reservationNotFoundError
  | some reservation =>
    match reservation.reject admin_notes now with
    | .error e => .error e
    | .ok updated =>
      .ok ({ st with reservations := ReservationRepo.update st.reservations updated },
           updated)

/-- Use case `ManageReservationsService.cancel_reservation`: fetch, check
ownership, cancel, persist. -/
def cancel_reservation (st : SystemState) (reservation_id : Nat) (user_id : Nat)
    (now : Int) : Except DomainError (SystemState × Reservation) :=
  match ReservationRepo.find_by_id st.reservations reservation_id with
  | none => .error .reservationNotFoundError
  | some reservation =>
    if reservation.user_id ≠ user_id then .error .authorizationError
    else
      match reservation.cancel now with
      | .error e => .error e
      | .ok updated =>
        .ok ({ st with reservations := ReservationRepo.update st.reservations updated },
             updated)

/-- One core operation applied to the stores, with its nondeterministic
inputs (fresh id, clock) made explicit. -/
inductive Op where
  | reserve (user_id : Nat) (space_id : String) (time_slot : TimeSlot) (rid : Nat) (now : Int)
  | approve (reservation_id : Nat) (admin_notes : String) (now : Int)
  | reject (reservation_id : Nat) (admin_notes : String) (now : Int)
  | cancel (reservation_id : Nat) (user_id : Nat) (now : Int)
deriving Repr

/-- Apply one operation; a raised domain error leaves the stores
unchanged (the services raise before persisting). -/
def applyOp (st : SystemState) (op : Op) : SystemState :=
  match op with
  | .reserve u sid slot rid now =>
    match reserve_parking st u sid slot rid now with
    | .ok (st2, _) => st2
    | .error _ => st
  | .approve rid notes now =>
    match approve_reservation st rid notes now with
    | .ok (st2, _) => st2
    | .error _ => st
  | .reject rid notes now =>
    match reject_reservation st rid notes now with
    | .ok (st2, _) => st2
    | .error _ => st
  | .cancel rid uid now =>
    match cancel_reservation st rid uid now with
    | .ok (st2, _) => st2
    | .error _ => st

/-- Sequential execution of a list of core operations. -/
def runOps (st : SystemState) (ops : List Op) : SystemState :=
  ops.foldl applyOp st

/-- A reservation counts toward conflicts: status PENDING or CONFIRMED. -/
def IsActive (r : Reservation) : Prop :=
  r.status = ReservationStatus.pending ∨ r.status = ReservationStatus.confirmed

instance (r : Reservation) : Decidable (IsActive r) := by
  unfold IsActive; infer_instance

/-- Two stored reservations are compatible: if they sit on the same
space and both are active, their slots do not overlap. -/
def ResCompat (r1 r2 : Reservation) : Prop :=
  r1.space_id = r2.space_id → IsActive r1 → IsActive r2 →
    time_slots_overlap r1.time_slot r2.time_slot = false

instance (r1 r2 : Reservation) : Decidable (ResCompat r1 r2) := by
  unfold ResCompat; infer_instance

/-- The no-overlap invariant over the reservation store: every two
distinct entries are compatible. -/
def NoOverlapInv (db : List (Nat × Reservation)) : Prop :=
  db.Pairwise (fun p q => ResCompat p.2 q.2)

/-- Wellformedness that the Python dict guarantees by construction:
keys are distinct, and `save`/`update` always key an entry by its own
`reservation_id` field. -/
def StoreWF (db : List (Nat × Reservation)) : Prop :=
  (db.map Prod.fst).Nodup ∧ ∀ p ∈ db, p.2.reservation_id = p.1

/-! ### Concrete data for witness scenarios (mirroring spec §8) -/

/-- Space A1 of the spec scenario: available, rate 5, standard. -/
def spaceA1 : ParkingSpace :=
  { space_id := "A1", location := "Lot 1", is_available := true,
    hourly_rate := 5, space_type := "standard" }

/-- Space B2: administratively unavailable. -/
def spaceB2 : ParkingSpace :=
  { space_id := "B2", location := "Lot 1", is_available := false,
    hourly_rate := 5, space_type := "standard" }

def slot9to11 : TimeSlot := ⟨9, 11⟩

def slot10to12 : TimeSlot := ⟨10, 12⟩

def slot11to13 : TimeSlot := ⟨11, 13⟩

/-- Initial stores of the spec scenario: one available space, no
reservations. -/
def demoInit : SystemState :=
  { reservations := [], spaces := [("A1", spaceA1)] }

/-- The §8.5 operation sequence: reserve, approve, cancel, re-reserve
the original slot. -/
def demoOps : List Op :=
  [ Op.reserve 1 "A1" slot9to11 101 0,
    Op.approve 101 "ok" 1,
    Op.cancel 101 1 2,
    Op.reserve 2 "A1" slot9to11 102 3 ]

/-- A cancelled reservation occupying A1 09:00-11:00: inert history. -/
def cancelledRes : Reservation :=
  { user_id := 1, space_id := "A1", time_slot := slot9to11, reservation_id := 101,
    status := .cancelled, created_at := 0, updated_at := 2, admin_notes := "" }

/-- Stores in which the only reservation overlapping A1 09:00-11:00 is
cancelled. -/
def demoCancelledState : SystemState :=
  { reservations := [(101, cancelledRes)], spaces := [("A1", spaceA1)] }

/-- A pending reservation on the nonexistent space Z99. -/
def pendingZ99 : Reservation :=
  { user_id := 1, space_id := "Z99", time_slot := slot9to11, reservation_id := 201,
    status := .pending, created_at := 0, updated_at := 0, admin_notes := "" }

/-- A pending reservation on the unavailable space B2. -/
def pendingB2 : Reservation :=
  { user_id := 1, space_id := "B2", time_slot := slot9to11, reservation_id := 202,
    status := .pending, created_at := 0, updated_at := 0, admin_notes := "" }

/-- Stores exercising the admission error priority: Z99 is absent from
the space store and B2 is unavailable, while conflicting reservations
sit on both. -/
def demoPriorityState : SystemState :=
  { reservations := [(201, pendingZ99), (202, pendingB2)], spaces := [("B2", spaceB2)] }

/-- A confirmed reservation owned by user 1 on A1. -/
def confirmedRes : Reservation :=
  { user_id := 1, space_id := "A1", time_slot := slot9to11, reservation_id := 301,
    status := .confirmed, created_at := 0, updated_at := 1, admin_notes := "ok" }

/-- Stores holding the confirmed reservation of user 1. -/
def demoConfirmedState : SystemState :=
  { reservations := [(301, confirmedRes)], spaces := [("A1", spaceA1)] }

/-- A pending reservation awaiting approval. -/
def pendingRes : Reservation :=
  { user_id := 1, space_id := "A1", time_slot := slot9to11, reservation_id := 401,
    status := .pending, created_at := 0, updated_at := 0, admin_notes := "" }

/-! ### Association-list lemmas -/

lemma assocGet_mem {κ α : Type} [DecidableEq κ] {k : κ} {v : α} :
    ∀ {l : List (κ × α)}, assocGet k l = some v → (k, v) ∈ l := by
  intro l
  induction l with
  | nil => intro h; simp [assocGet] at h
  | cons p rest ih =>
    intro h
    rcases p with ⟨k', v'⟩
    by_cases hk : k' = k
    · subst hk
      simp [assocGet] at h
      subst h
      exact List.mem_cons_self _ _
    · simp only [assocGet, if_neg hk] at h
      exact List.mem_cons_of_mem _ (ih h)

lemma mem_assocPut {κ α : Type} [DecidableEq κ] {k : κ} {v : α} {p : κ × α} :
    ∀ {l : List (κ × α)}, p ∈ assocPut k v l → p = (k, v) ∨ p ∈ l := by
  intro l
  induction l with
  | nil => intro h; simp [assocPut] at h; exact Or.inl h
  | cons q rest ih =>
    intro h
    rcases q with ⟨k', v'⟩
    by_cases hk : k' = k
    · subst hk
      simp only [assocPut, if_pos rfl] at h
      rcases List.mem_cons.mp h with h | h
      · exact Or.inl h
      · exact Or.inr (List.mem_cons_of_mem _ h)
    · simp only [assocPut, if_neg hk] at h
      rcases List.mem_cons.mp h with h | h
      · exact Or.inr (h ▸ List.mem_cons_self _ _)
      · rcases ih h with h | h
        · exact Or.inl h
        · exact Or.inr (List.mem_cons_of_mem _ h)

lemma assocGet_assocPut_self {κ α : Type} [DecidableEq κ] (k : κ) (v : α) :
    ∀ (l : List (κ × α)), assocGet k (assocPut k v l) = some v := by
  intro l
  induction l with
  | nil => simp [assocPut, assocGet]
  | cons q rest ih =>
    rcases q with ⟨k', v'⟩
    by_cases hk : k' = k
    · subst hk; simp [assocPut, assocGet]
    · simp [assocPut, assocGet, hk, ih]

lemma assocGet_assocRemove {κ α : Type} [DecidableEq κ] (k : κ) :
    ∀ (l : List (κ × α)), assocGet k (assocRemove k l) = none := by
  intro l
  induction l with
  | nil => simp [assocRemove, assocGet]
  | cons q rest ih =>
    rcases q with ⟨k', v'⟩
    by_cases hk : k' = k
    · subst hk
      simpa [assocRemove, List.filter] using ih
    · simpa [assocRemove, List.filter, hk, assocGet] using ih

lemma keys_assocPut_mem {κ α : Type} [DecidableEq κ] {k x : κ} {v : α}
    {l : List (κ × α)} (h : x ∈ (assocPut k v l).map Prod.fst) :
    x = k ∨ x ∈ l.map Prod.fst := by
  rcases List.mem_map.mp h with ⟨p, hp, hx⟩
  rcases mem_assocPut hp with hp | hp
  · subst hp; exact Or.inl hx.symm
  · exact Or.inr (hx ▸ List.mem_map_of_mem Prod.fst hp)

lemma keys_nodup_assocPut {κ α : Type} [DecidableEq κ] {k : κ} {v : α} :
    ∀ {l : List (κ × α)}, (l.map Prod.fst).Nodup →
      ((assocPut k v l).map Prod.fst).Nodup := by
  intro l
  induction l with
  | nil => intro _; simp [assocPut]
  | cons q rest ih =>
    intro h
    rcases q with ⟨k', v'⟩
    simp only [List.map_cons, List.nodup_cons] at h
    by_cases hk : k' = k
    · subst hk
      simpa [assocPut] using h
    · simp only [assocPut, if_neg hk, List.map_cons, List.nodup_cons]
      refine ⟨fun hmem => ?_, ih h.2⟩
      rcases keys_assocPut_mem hmem with hmem | hmem
      · exact hk hmem
      · exact h.1 hmem

/-- Core replacement lemma: dict insertion preserves pairwise
compatibility provided the inserted value is compatible with every
entry whose key differs. -/
lemma pairwise_assocPut {κ α : Type} [DecidableEq κ]
    {R : κ × α → κ × α → Prop} (hsym : ∀ p q, R p q → R q p)
    {k : κ} {v : α} :
    ∀ {l : List (κ × α)}, (l.map Prod.fst).Nodup → l.Pairwise R →
      (∀ p ∈ l, p.1 ≠ k → R p (k, v)) → (assocPut k v l).Pairwise R := by
  intro l
  induction l with
  | nil => intro _ _ _; simp [assocPut]
  | cons q rest ih =>
    intro hnodup hp hv
    rcases q with ⟨k', a⟩
    simp only [List.map_cons, List.nodup_cons] at hnodup
    rcases List.pairwise_cons.mp hp with ⟨hhead, hprest⟩
    by_cases hk : k' = k
    · subst hk
      simp only [assocPut, if_pos rfl]
      refine List.Pairwise.cons ?_ hprest
      intro q hq
      have hq1 : q.1 ≠ k' := by
        intro he
        exact hnodup.1 (he ▸ List.mem_map_of_mem Prod.fst hq)
      exact hsym _ _ (hv q (List.mem_cons_of_mem _ hq) hq1)
    · simp only [assocPut, if_neg hk]
      refine List.Pairwise.cons ?_
        (ih hnodup.2 hprest (fun p hp hpk => hv p (List.mem_cons_of_mem _ hp) hpk))
      intro q hq
      rcases mem_assocPut hq with hq | hq
      · exact hq ▸ hv (k', a) (List.mem_cons_self _ _) hk
      · exact hhead q hq

lemma storeWF_assocPut {l : List (Nat × Reservation)} {k : Nat} {v : Reservation}
    (hwf : StoreWF l) (hk : v.reservation_id = k) : StoreWF (assocPut k v l) := by
  refine ⟨keys_nodup_assocPut hwf.1, ?_⟩
  intro p hp
  rcases mem_assocPut hp with hp | hp
  · subst hp; exact hk
  · exact hwf.2 p hp

/-! ### Compatibility plumbing -/

lemma time_slots_overlap_comm (s1 s2 : TimeSlot) :
    time_slots_overlap s1 s2 = time_slots_overlap s2 s1 := by
  unfold time_slots_overlap
  exact Bool.and_comm _ _

lemma resCompat_symm {r1 r2 : Reservation} (h : ResCompat r1 r2) : ResCompat r2 r1 := by
  intro heq ha2 ha1
  rw [time_slots_overlap_comm]
  exact h heq.symm ha1 ha2

lemma pairSym (p q : Nat × Reservation) :
    (fun p q : Nat × Reservation => ResCompat p.2 q.2) p q →
    (fun p q : Nat × Reservation => ResCompat p.2 q.2) q p :=
  fun h => resCompat_symm h

lemma active_beq (s : ReservationStatus) :
    ((s == ReservationStatus.pending || s == ReservationStatus.confirmed) = true) ↔
      (s = ReservationStatus.pending ∨ s = ReservationStatus.confirmed) := by
  cases s <;> decide

/-- When the admission check list `active_conflicts` is empty, no
stored active reservation on the space overlaps the requested slot. -/
lemma active_conflicts_nil_no_overlap {db : List (Nat × Reservation)}
    {sid : String} {slot : TimeSlot}
    (h : active_conflicts db sid slot = []) :
    ∀ p ∈ db, p.2.space_id = sid → IsActive p.2 →
      time_slots_overlap p.2.time_slot slot = false := by
  intro p hp hsp hact
  cases hb : time_slots_overlap p.2.time_slot slot
  · rfl
  · exfalso
    have hmem : p.2 ∈ ReservationRepo.find_by_space_and_time db sid slot := by
      unfold ReservationRepo.find_by_space_and_time
      refine List.mem_filter.mpr ⟨List.mem_map_of_mem Prod.snd hp, ?_⟩
      simp [hsp, hb]
    have hmem2 : p.2 ∈ active_conflicts db sid slot := by
      unfold active_conflicts
      exact List.mem_filter.mpr ⟨hmem, (active_beq p.2.status).mpr hact⟩
    rw [h] at hmem2
    exact List.not_mem_nil _ hmem2

/-! ### Inversion of the success branches of the use cases -/

lemma reserve_parking_ok {st : SystemState} {u : Nat} {sid : String}
    {slot : TimeSlot} {rid : Nat} {now : Int} {st2 : SystemState} {res : Reservation}
    (h : reserve_parking st u sid slot rid now = .ok (st2, res)) :
    active_conflicts st.reservations sid slot = [] ∧
    res = { user_id := u, space_id := sid, time_slot := slot, reservation_id := rid,
            status := .pending, created_at := now, updated_at := now, admin_notes := "" } ∧
    st2 = { st with reservations := ReservationRepo.save st.reservations res } := by
  unfold reserve_parking at h
  split at h
  · exact absurd h (by simp)
  · split at h
    · exact absurd h (by simp)
    · split at h
      · exact absurd h (by simp)
      · rename_i hc
        simp only [Except.ok.injEq, Prod.mk.injEq] at h
        refine ⟨not_not.mp hc, h.2.symm, ?_⟩
        rw [← h.1, ← h.2]

lemma approve_reservation_ok {st : SystemState} {rid : Nat} {notes : String}
    {now : Int} {st2 : SystemState} {res : Reservation}
    (h : approve_reservation st rid notes now = .ok (st2, res)) :
    ∃ r, ReservationRepo.find_by_id st.reservations rid = some r ∧
      r.status = ReservationStatus.pending ∧
      res = { r with status := .confirmed, admin_notes := notes, updated_at := now } ∧
      st2 = { st with reservations := ReservationRepo.update st.reservations res } := by
  unfold approve_reservation Reservation.approve at h
  split at h
  · exact absurd h (by simp)
  · rename_i r hfind
    split at h
    · exact absurd h (by simp)
    · rename_i updated heq
      split at heq
      · exact absurd heq (by simp)
      · rename_i hp
        simp only [Except.ok.injEq, Prod.mk.injEq] at h heq
        refine ⟨r, hfind, not_not.mp hp, (heq.trans h.2).symm, ?_⟩
        rw [← h.1, ← h.2]

lemma reject_reservation_ok {st : SystemState} {rid : Nat} {notes : String}
    {now : Int} {st2 : SystemState} {res : Reservation}
    (h : reject_reservation st rid notes now = .ok (st2, res)) :
    ∃ r, ReservationRepo.find_by_id st.reservations rid = some r ∧
      r.status = ReservationStatus.pending ∧
      res = { r with status := .rejected, admin_notes := notes, updated_at := now } ∧
      st2 = { st with reservations := ReservationRepo.update st.reservations res } := by
  unfold reject_reservation Reservation.reject at h
  split at h
  · exact absurd h (by simp)
  · rename_i r hfind
    split at h
    · exact absurd h (by simp)
    · rename_i updated heq
      split at heq
      · exact absurd heq (by simp)
      · rename_i hp
        simp only [Except.ok.injEq, Prod.mk.injEq] at h heq
        refine ⟨r, hfind, not_not.mp hp, (heq.trans h.2).symm, ?_⟩
        rw [← h.1, ← h.2]

lemma cancel_reservation_ok {st : SystemState} {rid : Nat} {uid : Nat}
    {now : Int} {st2 : SystemState} {res : Reservation}
    (h : cancel_reservation st rid uid now = .ok (st2, res)) :
    ∃ r, ReservationRepo.find_by_id st.reservations rid = some r ∧
      r.user_id = uid ∧
      ¬(r.status = ReservationStatus.rejected ∨ r.status = ReservationStatus.cancelled) ∧
      res = { r with status := .cancelled, updated_at := now } ∧
      st2 = { st with reservations := ReservationRepo.update st.reservations res } := by
  unfold cancel_reservation Reservation.cancel at h
  split at h
  · exact absurd h (by simp)
  · rename_i r hfind
    split at h
    · exact absurd h (by simp)
    · rename_i huser
      split at h
      · exact absurd h (by simp)
      · rename_i updated heq
        split at heq
        · exact absurd heq (by simp)
        · rename_i hterm
          simp only [Except.ok.injEq, Prod.mk.injEq] at h heq
          refine ⟨r, hfind, not_not.mp huser, hterm, (heq.trans h.2).symm, ?_⟩
          rw [← h.1, ← h.2]

/-! ### Invariant preservation -/

lemma reserve_preserves {st : SystemState} {u : Nat} {sid : String} {slot : TimeSlot}
    {rid : Nat} {now : Int} {st2 : SystemState} {res : Reservation}
    (hwf : StoreWF st.reservations) (hinv : NoOverlapInv st.reservations)
    (h : reserve_parking st u sid slot rid now = .ok (st2, res)) :
    StoreWF st2.reservations ∧ NoOverlapInv st2.reservations := by
  obtain ⟨hnil, hres, hst2⟩ := reserve_parking_ok h
  subst hres
  subst hst2
  constructor
  · exact storeWF_assocPut hwf rfl
  · unfold NoOverlapInv
    refine pairwise_assocPut pairSym hwf.1 hinv ?_
    intro p hp _
    intro hsp hactp _
    exact active_conflicts_nil_no_overlap hnil p hp hsp hactp

lemma approve_preserves {st : SystemState} {rid : Nat} {notes : String} {now : Int}
    {st2 : SystemState} {res : Reservation}
    (hwf : StoreWF st.reservations) (hinv : NoOverlapInv st.reservations)
    (h : approve_reservation st rid notes now = .ok (st2, res)) :
    StoreWF st2.reservations ∧ NoOverlapInv st2.reservations := by
  obtain ⟨r, hfind, hpend, hres, hst2⟩ := approve_reservation_ok h
  have hmem : (rid, r) ∈ st.reservations := assocGet_mem hfind
  have hkey : r.reservation_id = rid := hwf.2 _ hmem
  subst hres
  subst hst2
  constructor
  · exact storeWF_assocPut hwf rfl
  · unfold NoOverlapInv
    refine pairwise_assocPut pairSym hwf.1 hinv ?_
    intro p hp hpk
    have hpk2 : p.1 ≠ rid := by simpa [hkey] using hpk
    have hne : p ≠ (rid, r) := by
      intro he
      exact hpk2 (by rw [he])
    have hcomp : ResCompat p.2 r := List.Pairwise.forall pairSym hinv hp hmem hne
    intro hsp hactp _
    have hsp2 : p.2.space_id = r.space_id := hsp
    exact hcomp hsp2 hactp (Or.inl hpend)

lemma reject_preserves {st : SystemState} {rid : Nat} {notes : String} {now : Int}
    {st2 : SystemState} {res : Reservation}
    (hwf : StoreWF st.reservations) (hinv : NoOverlapInv st.reservations)
    (h : reject_reservation st rid notes now = .ok (st2, res)) :
    StoreWF st2.reservations ∧ NoOverlapInv st2.reservations := by
  obtain ⟨r, hfind, _, hres, hst2⟩ := reject_reservation_ok h
  subst hres
  subst hst2
  constructor
  · exact storeWF_assocPut hwf rfl
  · unfold NoOverlapInv
    refine pairwise_assocPut pairSym hwf.1 hinv ?_
    intro p hp _
    intro _ _ hactres
    exfalso
    simp [IsActive] at hactres

lemma cancel_preserves {st : SystemState} {rid : Nat} {uid : Nat} {now : Int}
    {st2 : SystemState} {res : Reservation}
    (hwf : StoreWF st.reservations) (hinv : NoOverlapInv st.reservations)
    (h : cancel_reservation st rid uid now = .ok (st2, res)) :
    StoreWF st2.reservations ∧ NoOverlapInv st2.reservations := by
  obtain ⟨r, hfind, _, _, hres, hst2⟩ := cancel_reservation_ok h
  subst hres
  subst hst2
  constructor
  · exact storeWF_assocPut hwf rfl
  · unfold NoOverlapInv
    refine pairwise_assocPut pairSym hwf.1 hinv ?_
    intro p hp _
    intro _ _ hactres
    exfalso
    simp [IsActive] at hactres

lemma applyOp_preserves {st : SystemState} (op : Op)
    (hwf : StoreWF st.reservations) (hinv : NoOverlapInv st.reservations) :
    StoreWF (applyOp st op).reservations ∧ NoOverlapInv (applyOp st op).reservations := by
  cases op with
  | reserve u sid slot rid now =>
    simp only [applyOp]
    cases hr : reserve_parking st u sid slot rid now with
    | ok pr =>
      rcases pr with ⟨st2, res⟩
      exact reserve_preserves hwf hinv hr
    | error e => exact ⟨hwf, hinv⟩
  | approve rid notes now =>
    simp only [applyOp]
    cases hr : approve_reservation st rid notes now with
    | ok pr =>
      rcases pr with ⟨st2, res⟩
      exact approve_preserves hwf hinv hr
    | error e => exact ⟨hwf, hinv⟩
  | reject rid notes now =>
    simp only [applyOp]
    cases hr : reject_reservation st rid notes now with
    | ok pr =>
      rcases pr with ⟨st2, res⟩
      exact reject_preserves hwf hinv hr
    | error e => exact ⟨hwf, hinv⟩
  | cancel rid uid now =>
    simp only [applyOp]
    cases hr : cancel_reservation st rid uid now with
    | ok pr =>
      rcases pr with ⟨st2, res⟩
      exact cancel_preserves hwf hinv hr
    | error e => exact ⟨hwf, hinv⟩

lemma runOps_preserves {ops : List Op} :
    ∀ {st : SystemState}, StoreWF st.reservations → NoOverlapInv st.reservations →
      StoreWF (runOps st ops).reservations ∧ NoOverlapInv (runOps st ops).reservations := by
  induction ops with
  | nil => intro st hwf hinv; exact ⟨hwf, hinv⟩
  | cons op rest ih =>
    intro st hwf hinv
    have h1 := applyOp_preserves op hwf hinv
    exact ih h1.1 h1.2

/-! ### Claim theorems -/

/-- C1: No-overlap invariant.  Starting from wellformed stores (a dict:
distinct keys, each entry keyed by its own `reservation_id`) in which
the PENDING/CONFIRMED reservations of every space have pairwise
non-overlapping time slots, every sequence of sequentially executed
core operations (reserve_parking, approve, reject, cancel) preserves
that property. -/
theorem no_overlap_invariant_preserved (st : SystemState) (ops : List Op)
    (hwf : StoreWF st.reservations) (hinv : NoOverlapInv st.reservations) :
    NoOverlapInv (runOps st ops).reservations :=
  (runOps_preserves hwf hinv).2

/-- Witness for C1: the §8.5 scenario (reserve 09:00-11:00, approve,
cancel, reserve the same slot again) run from the one-space store keeps
the no-overlap invariant. -/
theorem no_overlap_invariant_preserved_witness :
    NoOverlapInv (runOps demoInit demoOps).reservations :=
  no_overlap_invariant_preserved demoInit demoOps
    ⟨by simp [demoInit], by simp [demoInit]⟩
    (by simp [demoInit, NoOverlapInv])

/-- C2: the repository overlap test is the half-open predicate
`A.start < B.end AND B.start < A.end`; a slot ending exactly when
another begins (09:00-11:00 vs 11:00-13:00) does not overlap, while
10:00-12:00 does overlap 09:00-11:00. -/
theorem time_slots_overlap_spec :
    (∀ A B : TimeSlot, time_slots_overlap A B = true ↔
      (A.start_time < B.end_time ∧ B.start_time < A.end_time))
    ∧ time_slots_overlap slot9to11 slot11to13 = false
    ∧ time_slots_overlap slot10to12 slot9to11 = true := by
  refine ⟨fun A B => ?_, by decide, by decide⟩
  unfold time_slots_overlap
  simp

/-- C3: state-machine closure.  `approve` and `reject` raise
`InvalidReservationError` exactly when the status is not PENDING and
succeed exactly when it is; `cancel` raises exactly when the status is
REJECTED or CANCELLED and succeeds exactly from PENDING or CONFIRMED —
hence no transition succeeds from REJECTED or CANCELLED, and from
CONFIRMED only cancel succeeds. -/
theorem state_machine_closure (r : Reservation) (notes : String) (now : Int) :
    (r.approve notes now = .error .invalidReservationError ↔
      r.status ≠ ReservationStatus.pending)
    ∧ ((∃ r2, r.approve notes now = .ok r2) ↔ r.status = ReservationStatus.pending)
    ∧ (r.reject notes now = .error .invalidReservationError ↔
      r.status ≠ ReservationStatus.pending)
    ∧ ((∃ r2, r.reject notes now = .ok r2) ↔ r.status = ReservationStatus.pending)
    ∧ (r.cancel now = .error .invalidReservationError ↔
      (r.status = ReservationStatus.rejected ∨ r.status = ReservationStatus.cancelled))
    ∧ ((∃ r2, r.cancel now = .ok r2) ↔
      (r.status = ReservationStatus.pending ∨ r.status = ReservationStatus.confirmed)) := by
  rcases r with ⟨uid, sid, ts, rid, status, ca, ua, an⟩
  cases status <;>
    simp [Reservation.approve, Reservation.reject, Reservation.cancel]

/-- C9: `TimeSlot` construction rejects `end <= start` (zero-length and
inverted ranges) with the invalid-range error at construction time —
`TimeSlot.make` consults no store — and a successful construction holds
exactly the given bounds. -/
theorem timeslot_construction (s e : Int) :
    (TimeSlot.make s e = .error .valueError ↔ e ≤ s)
    ∧ (TimeSlot.make s e = .ok ⟨s, e⟩ ↔ s < e) := by
  unfold TimeSlot.make
  by_cases h : e ≤ s
  · refine ⟨by simp [h], ?_⟩
    rw [if_pos h]
    constructor
    · intro hh
      exact absurd hh (by simp)
    · intro hh
      omega
  · refine ⟨by simp [h], ?_⟩
    rw [if_neg h]
    constructor
    · intro _
      omega
    · intro _
      rfl

/-- C10: delete is a total no-op on absent ids.  In the model both
`delete` implementations are total functions (the underlying
`dict.pop(id, None)` never raises), and after deleting any id —
present beforehand or not — `find_by_id` of that id returns `None`, on
both the reservation store and the space store. -/
theorem delete_find_none (db : List (Nat × Reservation)) (rid : Nat)
    (sdb : List (String × ParkingSpace)) (sid : String) :
    ReservationRepo.find_by_id (ReservationRepo.delete db rid) rid = none
    ∧ SpaceRepo.find_by_id (SpaceRepo.delete sdb sid) sid = none :=
  ⟨assocGet_assocRemove rid db, assocGet_assocRemove sid sdb⟩

lemma active_conflicts_eq_nil_iff {db : List (Nat × Reservation)} {sid : String}
    {slot : TimeSlot} :
    active_conflicts db sid slot = [] ↔
      ∀ r ∈ ReservationRepo.find_by_space_and_time db sid slot,
        r.status ≠ ReservationStatus.pending ∧ r.status ≠ ReservationStatus.confirmed := by
  unfold active_conflicts
  rw [List.filter_eq_nil_iff]
  constructor
  · intro h r hr
    have hb := h r hr
    rw [active_beq] at hb
    push_neg at hb
    exact hb
  · intro h r hr
    have hb := h r hr
    rw [active_beq]
    push_neg
    exact hb

/-- C4: admission error priority in `reserve_parking`: existence is
checked first (`SpaceNotFoundError`), then administrative availability
(`SpaceNotAvailableError`), and only then conflicts
(`ReservationConflictError`). -/
theorem reserve_error_priority (st : SystemState) (u : Nat) (sid : String)
    (slot : TimeSlot) (rid : Nat) (now : Int) :
    (SpaceRepo.find_by_id st.spaces sid = none →
      reserve_parking st u sid slot rid now = .error .spaceNotFoundError)
    ∧ (∀ sp, SpaceRepo.find_by_id st.spaces sid = some sp → sp.is_available = false →
      reserve_parking st u sid slot rid now = .error .spaceNotAvailableError)
    ∧ (∀ sp, SpaceRepo.find_by_id st.spaces sid = some sp → sp.is_available = true →
      active_conflicts st.reservations sid slot ≠ [] →
      reserve_parking st u sid slot rid now = .error .reservationConflictError) := by
  refine ⟨?_, ?_, ?_⟩
  · intro h
    unfold reserve_parking
    simp [h]
  · intro sp h hav
    unfold reserve_parking
    simp [h, hav]
  · intro sp h hav hconf
    unfold reserve_parking
    simp [h, hav, hconf]

/-- Witness for C4: in stores where Z99 is absent (but a pending
reservation conflicts on it) the result is `SpaceNotFoundError`, and
where B2 exists but is unavailable (with a pending conflict on it) the
result is `SpaceNotAvailableError`. -/
theorem reserve_error_priority_witness :
    reserve_parking demoPriorityState 2 "Z99" slot9to11 501 5 =
        .error .spaceNotFoundError
    ∧ reserve_parking demoPriorityState 2 "B2" slot9to11 502 5 =
        .error .spaceNotAvailableError :=
  ⟨(reserve_error_priority demoPriorityState 2 "Z99" slot9to11 501 5).1 (by decide),
   (reserve_error_priority demoPriorityState 2 "B2" slot9to11 502 5).2.1 spaceB2
      rfl rfl⟩

/-- C5: `is_space_available` fails closed — false when the space is
absent or administratively unavailable; otherwise true exactly when no
reservation returned by the space-and-time overlap query has status
PENDING or CONFIRMED. -/
theorem is_space_available_spec (st : SystemState) (sid : String) (slot : TimeSlot) :
    (SpaceRepo.find_by_id st.spaces sid = none → is_space_available st sid slot = false)
    ∧ (∀ sp, SpaceRepo.find_by_id st.spaces sid = some sp → sp.is_available = false →
      is_space_available st sid slot = false)
    ∧ (∀ sp, SpaceRepo.find_by_id st.spaces sid = some sp → sp.is_available = true →
      (is_space_available st sid slot = true ↔
        ∀ r ∈ ReservationRepo.find_by_space_and_time st.reservations sid slot,
          r.status ≠ ReservationStatus.pending ∧
          r.status ≠ ReservationStatus.confirmed)) := by
  refine ⟨?_, ?_, ?_⟩
  · intro h
    unfold is_space_available
    simp [h]
  · intro sp h hav
    unfold is_space_available
    simp [h, hav]
  · intro sp h hav
    unfold is_space_available
    simp only [h, hav, Bool.not_true, Bool.false_eq_true, if_false, beq_iff_eq,
      List.length_eq_zero]
    exact active_conflicts_eq_nil_iff

/-- Witness for C5: with only a cancelled reservation overlapping A1
09:00-11:00, the available and existing space A1 reports available. -/
theorem is_space_available_spec_witness :
    is_space_available demoCancelledState "A1" slot9to11 = true :=
  ((is_space_available_spec demoCancelledState "A1" slot9to11).2.2 spaceA1 rfl rfl).mpr
    (by decide)

/-- C6: REJECTED and CANCELLED reservations never block admission — if
every reservation overlapping the slot on the space is rejected or
cancelled, and the space exists and is administratively available,
`reserve_parking` succeeds with a new PENDING reservation. -/
theorem inert_history_reserve (st : SystemState) (u : Nat) (sid : String)
    (slot : TimeSlot) (rid : Nat) (now : Int) (sp : ParkingSpace)
    (hsp : SpaceRepo.find_by_id st.spaces sid = some sp)
    (hav : sp.is_available = true)
    (hinert : ∀ r ∈ ReservationRepo.find_by_space_and_time st.reservations sid slot,
      r.status = ReservationStatus.rejected ∨ r.status = ReservationStatus.cancelled) :
    ∃ st2 res, reserve_parking st u sid slot rid now = .ok (st2, res) ∧
      res.status = ReservationStatus.pending := by
  have hnil : active_conflicts st.reservations sid slot = [] := by
    rw [active_conflicts_eq_nil_iff]
    intro r hr
    rcases hinert r hr with h | h <;> rw [h] <;> exact ⟨by decide, by decide⟩
  refine ⟨{ st with reservations :=
                      ReservationRepo.save st.reservations
                        { user_id := u, space_id := sid, time_slot := slot,
                          reservation_id := rid, status := .pending,
                          created_at := now, updated_at := now, admin_notes := "" } },
    { user_id := u, space_id := sid, time_slot := slot, reservation_id := rid,
      status := .pending, created_at := now, updated_at := now, admin_notes := "" },
    ?_, rfl⟩
  unfold reserve_parking
  simp [hsp, hav, hnil]

/-- Witness for C6: after the conflicting reservation on A1 09:00-11:00
is cancelled, user 2 re-requesting the originally conflicting slot
succeeds. -/
theorem inert_history_reserve_witness :
    ∃ st2 res, reserve_parking demoCancelledState 2 "A1" slot9to11 102 3 =
        .ok (st2, res) ∧ res.status = ReservationStatus.pending :=
  inert_history_reserve demoCancelledState 2 "A1" slot9to11 102 3 spaceA1
    rfl rfl (by decide)

/-- C7: cancellation sequence — absent id raises
`ReservationNotFoundError`; a non-owner raises `AuthorizationError`
before any state-machine check; an owner cancelling a REJECTED or
CANCELLED reservation gets `InvalidReservationError`; otherwise the
reservation is cancelled, persisted under its id and returned.  The
store is assumed dict-wellformed. -/
theorem cancel_reservation_spec (st : SystemState) (rid uid : Nat) (now : Int)
    (hwf : StoreWF st.reservations) :
    (ReservationRepo.find_by_id st.reservations rid = none →
      cancel_reservation st rid uid now = .error .reservationNotFoundError)
    ∧ (∀ r, ReservationRepo.find_by_id st.reservations rid = some r → r.user_id ≠ uid →
      cancel_reservation st rid uid now = .error .authorizationError)
    ∧ (∀ r, ReservationRepo.find_by_id st.reservations rid = some r → r.user_id = uid →
      (r.status = ReservationStatus.rejected ∨ r.status = ReservationStatus.cancelled) →
      cancel_reservation st rid uid now = .error .invalidReservationError)
    ∧ (∀ r, ReservationRepo.find_by_id st.reservations rid = some r → r.user_id = uid →
      (r.status = ReservationStatus.pending ∨ r.status = ReservationStatus.confirmed) →
      ∃ st2, cancel_reservation st rid uid now =
          .ok (st2, { r with status := .cancelled, updated_at := now }) ∧
        ReservationRepo.find_by_id st2.reservations rid =
          some { r with status := .cancelled, updated_at := now }) := by
  refine ⟨?_, ?_, ?_, ?_⟩
  · intro h
    unfold cancel_reservation
    simp [h]
  · intro r hfind hne
    unfold cancel_reservation
    simp [hfind, hne]
  · intro r hfind huser hterm
    unfold cancel_reservation Reservation.cancel
    rcases hterm with h | h <;> simp [hfind, huser, h]
  · intro r hfind huser hstat
    have hkey : r.reservation_id = rid := hwf.2 _ (assocGet_mem hfind)
    have hterm : ¬(r.status = ReservationStatus.rejected ∨
        r.status = ReservationStatus.cancelled) := by
      rcases hstat with h | h <;> rw [h] <;> decide
    refine ⟨{ st with reservations :=
                        ReservationRepo.update st.reservations
                          { r with status := .cancelled, updated_at := now } },
      ?_, ?_⟩
    · unfold cancel_reservation Reservation.cancel
      simp [hfind, huser, hterm]
    · show ReservationRepo.find_by_id
        (ReservationRepo.update st.reservations
          { r with status := .cancelled, updated_at := now }) rid =
        some { r with status := .cancelled, updated_at := now }
      unfold ReservationRepo.find_by_id ReservationRepo.update
      rw [show rid = ({ r with status := .cancelled, updated_at := now } : Reservation).reservation_id from hkey.symm]
      exact assocGet_assocPut_self _ _ _

/-- Witness for C7: user 1 cancels their own CONFIRMED reservation 301;
it succeeds, is returned with status CANCELLED, and is persisted. -/
theorem cancel_reservation_spec_witness :
    ∃ st2, cancel_reservation demoConfirmedState 301 1 5 =
        .ok (st2, { confirmedRes with status := .cancelled, updated_at := 5 }) ∧
      ReservationRepo.find_by_id st2.reservations 301 =
        some { confirmedRes with status := .cancelled, updated_at := 5 } :=
  (cancel_reservation_spec demoConfirmedState 301 1 5 ⟨by decide, by decide⟩).2.2.2
    confirmedRes rfl rfl (Or.inr rfl)

/-- C8: approve effect and frame — from PENDING, `approve(notes)`
succeeds, sets status CONFIRMED, `admin_notes` to the notes and
`updated_at` to the clock, and leaves `reservation_id`, `user_id`,
`space_id`, `time_slot` and `created_at` unchanged. -/
theorem approve_effect_frame (r : Reservation) (notes : String) (now : Int)
    (h : r.status = ReservationStatus.pending) :
    ∃ r2, r.approve notes now = .ok r2 ∧
      r2.status = ReservationStatus.confirmed ∧ r2.admin_notes = notes ∧
      r2.updated_at = now ∧ r2.reservation_id = r.reservation_id ∧
      r2.user_id = r.user_id ∧ r2.space_id = r.space_id ∧
      r2.time_slot = r.time_slot ∧ r2.created_at = r.created_at := by
  refine ⟨{ r with status := .confirmed, admin_notes := notes, updated_at := now },
    ?_, rfl, rfl, rfl, rfl, rfl, rfl, rfl, rfl⟩
  unfold Reservation.approve
  rw [if_neg (by simp [h])]

/-- Witness for C8: approving the concrete pending reservation 401 with
notes "ok" at time 1. -/
theorem approve_effect_frame_witness :
    pendingRes.status = ReservationStatus.pending ∧
    (∃ r2, pendingRes.approve "ok" 1 = .ok r2 ∧
      r2.status = ReservationStatus.confirmed ∧ r2.admin_notes = "ok" ∧
      r2.updated_at = 1 ∧ r2.reservation_id = pendingRes.reservation_id ∧
      r2.user_id = pendingRes.user_id ∧ r2.space_id = pendingRes.space_id ∧
      r2.time_slot = pendingRes.time_slot ∧ r2.created_at = pendingRes.created_at) :=
  ⟨rfl, approve_effect_frame pendingRes "ok" 1 rfl⟩
